import Mathlib

/-!
# Verification of the BoringSSL byte-cursor and TLS 1.3 client handshake layer

Shallow embedding of the parsing and handshake-state-machine code of the
vendored BoringSSL sources (`Sources/BoringSSL/crypto/bytestring/cbs.c`,
`Sources/BoringSSL/ssl/t1_lib.cc`, `Sources/BoringSSL/ssl/tls13_client.cc`)
together with theorems settling the specification's claims about them.

Conventions of the embedding:
* a byte buffer is a `List Nat`; a byte read through a `uint8_t *` pointer is
  reduced `% 256`, mirroring the C type;
* a `CBS` (cursor over a byte string) keeps the data pointer as an offset
  `off` into the ambient buffer plus the remaining length `len`, exactly the
  two fields of the C `struct cbs_st`;
* every C getter that takes `CBS *cbs` and mutates it returns here a pair
  `(Option value, CBS)`: the first component is `none` exactly when the C
  function returns 0, and the second component is the cursor as the C
  function leaves it (also on failure, since a C failure can still have
  consumed bytes before a later internal step fails);
* machine integers are `Nat` with an explicit `% 2 ^ 32` where the C code
  can overflow a `uint32_t`.
-/

/-- A byte buffer (the memory a `CBS` points into). -/
abbrev Buf := List Nat

/-- Reading one byte through a `uint8_t` pointer: out-of-range positions read
as 0 (never exercised by the verified code paths), and the value is a byte. -/
def byteAt (buf : Buf) (i : Nat) : Nat := buf.getD i 0 % 256

/-- `struct cbs_st`: a data pointer (offset into the ambient buffer) and the
remaining length, from `CBS_init` in cbs.c. -/
structure CBS where
  off : Nat
  len : Nat
deriving DecidableEq, Repr

/-- `CBS_len` (cbs.c). -/
def CBS_len (c : CBS) : Nat := c.len

/-- `CBS_data` (cbs.c): the data pointer, as an offset. -/
def CBS_data (c : CBS) : Nat := c.off

/-- `cbs_get` (cbs.c): on success yields the old data pointer and advances the
cursor by `n`; on failure (fewer than `n` bytes remain) the cursor is
returned unchanged. -/
def cbs_get (c : CBS) (n : Nat) : Option Nat × CBS :=
  if c.len < n then (none, c)
  else (some c.off, ⟨c.off + n, c.len - n⟩)

/-- `CBS_skip` (cbs.c). -/
def CBS_skip (c : CBS) (n : Nat) : Option Unit × CBS :=
  match cbs_get c n with
  | (none, c') => (none, c')
  | (some _, c') => (some (), c')

/-- The big-endian accumulation loop of `cbs_get_u` (cbs.c):
`result <<= 8; result |= data[i]` on a `uint32_t`.  Since the shifted value
has zero low bits and `data[i] < 256`, the bitwise or is addition. -/
def beVal (buf : Buf) (p : Nat) : Nat → Nat
  | 0 => 0
  | n + 1 => beVal buf p n * 256 % 4294967296 + byteAt buf (p + n)

/-- `cbs_get_u` (cbs.c): read an `n`-byte big-endian unsigned value. -/
def cbs_get_u (buf : Buf) (c : CBS) (n : Nat) : Option Nat × CBS :=
  match cbs_get c n with
  | (none, c') => (none, c')
  | (some p, c') => (some (beVal buf p n), c')

/-- `CBS_get_u8` (cbs.c). -/
def CBS_get_u8 (buf : Buf) (c : CBS) : Option Nat × CBS :=
  match cbs_get c 1 with
  | (none, c') => (none, c')
  | (some p, c') => (some (byteAt buf p), c')

/-- `CBS_get_u16` (cbs.c). -/
def CBS_get_u16 (buf : Buf) (c : CBS) : Option Nat × CBS :=
  cbs_get_u buf c 2

/-- `CBS_get_u24` (cbs.c). -/
def CBS_get_u24 (buf : Buf) (c : CBS) : Option Nat × CBS :=
  cbs_get_u buf c 3

/-- `CBS_get_u32` (cbs.c). -/
def CBS_get_u32 (buf : Buf) (c : CBS) : Option Nat × CBS :=
  cbs_get_u buf c 4

/-- `CBS_get_last_u8` (cbs.c): reads the last remaining byte, shrinking the
length; the data pointer does not move. -/
def CBS_get_last_u8 (buf : Buf) (c : CBS) : Option Nat × CBS :=
  if c.len = 0 then (none, c)
  else (some (byteAt buf (c.off + c.len - 1)), ⟨c.off, c.len - 1⟩)

/-- `CBS_get_bytes` (cbs.c): on success the first component is the sub-cursor
`CBS_init(out, v, len)` over the consumed bytes. -/
def CBS_get_bytes (c : CBS) (n : Nat) : Option CBS × CBS :=
  match cbs_get c n with
  | (none, c') => (none, c')
  | (some p, c') => (some ⟨p, n⟩, c')

/-- `cbs_get_length_prefixed` (cbs.c): reads a `len_len`-byte big-endian
length, then slices that many bytes.  Note the C code advances `cbs` past the
length prefix before `CBS_get_bytes` can still fail. -/
def cbs_get_length_prefixed (buf : Buf) (c : CBS) (len_len : Nat) :
    Option CBS × CBS :=
  match cbs_get_u buf c len_len with
  | (none, c') => (none, c')
  | (some len, c') => CBS_get_bytes c' len

/-- `CBS_get_u8_length_prefixed` (cbs.c). -/
def CBS_get_u8_length_prefixed (buf : Buf) (c : CBS) : Option CBS × CBS :=
  cbs_get_length_prefixed buf c 1

/-- `CBS_get_u16_length_prefixed` (cbs.c). -/
def CBS_get_u16_length_prefixed (buf : Buf) (c : CBS) : Option CBS × CBS :=
  cbs_get_length_prefixed buf c 2

/-- `CBS_get_u24_length_prefixed` (cbs.c). -/
def CBS_get_u24_length_prefixed (buf : Buf) (c : CBS) : Option CBS × CBS :=
  cbs_get_length_prefixed buf c 3

/-- The bytes a cursor currently views, for `CBS_mem_equal` / `CBS_stow`. -/
def readBytes (buf : Buf) (off n : Nat) : List Nat :=
  (List.range n).map fun i => byteAt buf (off + i)

/-- `CBS_mem_equal` (cbs.c): constant-time comparison is plain equality in
the model. -/
def CBS_mem_equal (buf : Buf) (c : CBS) (data : List Nat) : Bool :=
  c.len = data.length && readBytes buf c.off c.len = data

/-- `CBS_stow` (cbs.c), with allocation assumed to succeed: the stowed copy
of the viewed bytes. -/
def CBS_stow (buf : Buf) (c : CBS) : List Nat :=
  readBytes buf c.off c.len

/-! ## t1_lib.cc: ClientHello padding extension (`ssl_add_clienthello_tlsext`) -/

/-- `TLSEXT_TYPE_padding` (tls1.h, RFC 7685). -/
def TLSEXT_TYPE_padding : Nat := 21

/-- The padding decision of `ssl_add_clienthello_tlsext` (t1_lib.cc lines
2955-2984), for the non-DTLS case.  The argument is `header_len` after the
line `header_len += 2 + CBB_len(&extensions) + psk_extension_len`, i.e. the
projected total ClientHello length.  The result is the number of content
bytes of the padding extension appended, or `none` when no padding extension
is added. -/
def clienthello_padding_len (header_len : Nat) : Option Nat :=
  if header_len > 0xff && header_len < 0x200 then
    let padding_len := 0x200 - header_len
    let padding_len := if 4 + 1 ≤ padding_len then padding_len - 4 else 1
    some padding_len
  else
    none

/-- The projected ClientHello length after the padding decision: a padding
extension of `p` content bytes adds `2 + 2 + p` bytes (u16 type, u16 length,
content). -/
def clienthello_len_after_padding (header_len : Nat) : Nat :=
  match clienthello_padding_len header_len with
  | none => header_len
  | some p => header_len + 4 + p

/-! ## t1_lib.cc: duplicate-extension check (`tls1_check_duplicate_extensions`) -/

/-- The extension-block scan shared by both passes of
`tls1_check_duplicate_extensions` (t1_lib.cc lines 152-200): while bytes
remain, read a u16 type and a u16-length-prefixed body.  The first pass only
counts the entries and the second collects the types; since both run the
same reads over the same bytes, the model performs the scan once and returns
the list of types (whose length is the first pass's count).  `none` models
the `return 0` on a malformed block. -/
def collectExtTypes (buf : Buf) (c : CBS) : Option (List Nat) :=
  if _h0 : c.len = 0 then some []
  else
    match h1 : CBS_get_u16 buf c with
    | (none, _) => none
    | (some ty, c1) =>
      match h2 : CBS_get_u16_length_prefixed buf c1 with
      | (none, _) => none
      | (some _, c2) => (collectExtTypes buf c2).map fun ts => ty :: ts
termination_by c.len
decreasing_by
  by_cases hA : c.len < 2
  · exfalso; simp [CBS_get_u16, cbs_get_u, cbs_get, hA] at h1
  · have h1' : c1 = ⟨c.off + 2, c.len - 2⟩ := by
      simp [CBS_get_u16, cbs_get_u, cbs_get, hA] at h1
      exact h1.2.symm
    subst h1'
    by_cases hB : c.len - 2 < 2
    · exfalso
      simp [CBS_get_u16_length_prefixed, cbs_get_length_prefixed, cbs_get_u,
        cbs_get, CBS_get_bytes, hB] at h2
    · by_cases hC : c.len - 2 - 2 < beVal buf (c.off + 2) 2
      · exfalso
        simp [CBS_get_u16_length_prefixed, cbs_get_length_prefixed, cbs_get_u,
          cbs_get, CBS_get_bytes, hB, hC] at h2
      · have h2' : c2 = ⟨c.off + 2 + 2 + beVal buf (c.off + 2) 2,
            c.len - 2 - 2 - beVal buf (c.off + 2) 2⟩ := by
          simp [CBS_get_u16_length_prefixed, cbs_get_length_prefixed, cbs_get_u,
            cbs_get, CBS_get_bytes, hB, hC] at h2
          exact h2.2.symm
        subst h2'
        simp only []
        omega

/-- `l` has no two adjacent equal elements: the final scan of
`tls1_check_duplicate_extensions` (`extension_types[i-1] == extension_types[i]`
fails the check). -/
def noAdjacentDup : List Nat → Bool
  | [] => true
  | [_] => true
  | a :: b :: rest => a ≠ b && noAdjacentDup (b :: rest)

/-- `tls1_check_duplicate_extensions` (t1_lib.cc lines 152-200): scan the
block (failing on malformed input), accept an empty block outright, otherwise
sort the collected types (the C `qsort` with `compare_uint16_t`; any
comparison sort of naturals yields the same sorted list) and reject when two
adjacent sorted types are equal. -/
def tls1_check_duplicate_extensions (buf : Buf) (c : CBS) : Bool :=
  match collectExtTypes buf c with
  | none => false
  | some types =>
    if types.length = 0 then true
    else noAdjacentDup (List.insertionSort (· ≤ ·) types)

/-! ## t1_lib.cc: ClientHello pre-parse validation (`ssl_client_hello_init`) -/

/-- `SSL3_RANDOM_SIZE` (ssl3.h). -/
def SSL3_RANDOM_SIZE : Nat := 32

/-- `SSL_MAX_SSL_SESSION_ID_LENGTH` (ssl.h). -/
def SSL_MAX_SSL_SESSION_ID_LENGTH : Nat := 32

/-- `DTLS1_COOKIE_LENGTH` (dtls1.h). -/
def DTLS1_COOKIE_LENGTH : Nat := 256

/-- The output views of `SSL_CLIENT_HELLO` that `ssl_client_hello_init`
fills in; `extensions = none` models the `extensions = NULL,
extensions_len = 0` case of a ClientHello that ends right after
`compression_methods`. -/
structure SSL_CLIENT_HELLO where
  version : Nat
  random : CBS
  session_id : CBS
  cipher_suites : CBS
  compression_methods : CBS
  extensions : Option CBS
deriving DecidableEq, Repr

/-- The reads of the first validation group of `ssl_client_hello_init`
(t1_lib.cc lines 211-216): u16 version, 32-byte random, u8-length-prefixed
session id.  The session-id length bound of the same short-circuited
condition is checked by the caller; since every rejection is the same
`return 0`, checking it after the reads is extensionally the C behavior. -/
def ch_parse_prefix (buf : Buf) (c : CBS) : Option (Nat × CBS × CBS × CBS) :=
  match CBS_get_u16 buf c with
  | (none, _) => none
  | (some version, c1) =>
    match CBS_get_bytes c1 SSL3_RANDOM_SIZE with
    | (none, _) => none
    | (some random, c2) =>
      match CBS_get_u8_length_prefixed buf c2 with
      | (none, _) => none
      | (some session_id, c3) => some (version, random, session_id, c3)

/-- The DTLS-cookie skip of `ssl_client_hello_init` (t1_lib.cc lines
223-230). -/
def ch_skip_dtls_cookie (buf : Buf) (is_dtls : Bool) (c : CBS) : Option CBS :=
  if is_dtls then
    match CBS_get_u8_length_prefixed buf c with
    | (none, _) => none
    | (some cookie, c') =>
      if CBS_len cookie > DTLS1_COOKIE_LENGTH then none else some c'
  else some c

/-- The reads of the cipher-suites / compression-methods group of
`ssl_client_hello_init` (t1_lib.cc lines 232-238): a u16-length-prefixed
cipher-suite list, then a u8-length-prefixed compression-method list.  The
two length checks of the same short-circuited condition are applied by the
caller; since every rejection is the same `return 0`, this is extensionally
the C behavior. -/
def ch_parse_suites (buf : Buf) (c : CBS) : Option (CBS × CBS × CBS) :=
  match CBS_get_u16_length_prefixed buf c with
  | (none, _) => none
  | (some cipher_suites, c1) =>
    match CBS_get_u8_length_prefixed buf c1 with
    | (none, _) => none
    | (some compression_methods, c2) =>
      some (cipher_suites, compression_methods, c2)

/-- `ssl_client_hello_init` (t1_lib.cc lines 202-265): the four validation
groups in source order; a ClientHello that ends after `compression_methods`
is accepted with no extensions view, otherwise the u16-length-prefixed
extensions block must parse, pass the duplicate check, and leave no trailing
bytes. -/
def ssl_client_hello_init (buf : Buf) (is_dtls : Bool) (body : CBS) :
    Option SSL_CLIENT_HELLO :=
  match ch_parse_prefix buf body with
  | none => none
  | some (version, random, session_id, c1) =>
    if CBS_len session_id > SSL_MAX_SSL_SESSION_ID_LENGTH then none
    else
    match ch_skip_dtls_cookie buf is_dtls c1 with
    | none => none
    | some c2 =>
      match ch_parse_suites buf c2 with
      | none => none
      | some (cipher_suites, compression_methods, c3) =>
        if CBS_len cipher_suites < 2 ∨ CBS_len cipher_suites % 2 ≠ 0 then none
        else if CBS_len compression_methods < 1 then none
        else if CBS_len c3 = 0 then
          some ⟨version, random, session_id, cipher_suites,
            compression_methods, none⟩
        else
          match CBS_get_u16_length_prefixed buf c3 with
          | (none, _) => none
          | (some extensions, c4) =>
            if tls1_check_duplicate_extensions buf extensions ∧ CBS_len c4 = 0 then
              some ⟨version, random, session_id, cipher_suites,
                compression_methods, some extensions⟩
            else none

/-! ## t1_lib.cc: ServerHello extension scan (`ssl_scan_serverhello_tlsext`) -/

/-- `TLSEXT_TYPE_renegotiate` (tls1.h, RFC 5746). -/
def TLSEXT_TYPE_renegotiate : Nat := 0xff01

/-- `SSL_AD_DECODE_ERROR` (ssl.h / RFC 8446 alert). -/
def SSL_AD_DECODE_ERROR : Nat := 50

/-- `SSL_AD_ILLEGAL_PARAMETER` (ssl.h / RFC 8446 alert). -/
def SSL_AD_ILLEGAL_PARAMETER : Nat := 47

/-- `SSL_AD_UNSUPPORTED_EXTENSION` (ssl.h / RFC 8446 alert). -/
def SSL_AD_UNSUPPORTED_EXTENSION : Nat := 110

/-- `SSL_AD_MISSING_EXTENSION` (ssl.h / RFC 8446 alert). -/
def SSL_AD_MISSING_EXTENSION : Nat := 109

/-- `SSL_AD_UNEXPECTED_MESSAGE` (ssl.h / RFC 8446 alert). -/
def SSL_AD_UNEXPECTED_MESSAGE : Nat := 10

/-- `SSL_AD_INTERNAL_ERROR` (ssl.h / RFC 8446 alert). -/
def SSL_AD_INTERNAL_ERROR : Nat := 80

/-- `TLS1_2_VERSION` (tls1.h). -/
def TLS1_2_VERSION : Nat := 0x0303

/-- `TLS1_3_VERSION` (tls1.h). -/
def TLS1_3_VERSION : Nat := 0x0304

/-- `tls_extension_find` (t1_lib.cc lines 2871-2882): a linear scan over the
registry table's `value` column, returning the first matching index. -/
def tls_extension_find (registry : List Nat) (value : Nat) : Option Nat :=
  registry.findIdx? fun v => v = value

/-- The inputs of `ssl_scan_serverhello_tlsext` (t1_lib.cc lines 3139-3218).
The registry is the `value` column of `kExtensions`; the per-extension
`parse_serverhello` callbacks and the custom-extension handler live outside
the vendored sources and enter as oracle functions, indexed the way the C
code indexes them. -/
structure SHScanCtx where
  buf : Buf
  registry : List Nat
  extensions_sent : Nat
  parse_serverhello : Nat → CBS → Bool
  parse_alert : Nat → CBS → Nat
  custom_parse : Nat → CBS → Bool
  custom_alert : Nat → CBS → Nat

/-- The per-entry loop of `ssl_scan_serverhello_tlsext` (t1_lib.cc lines
3156-3201): decode `u16 type, u16-length-prefixed content`; unknown types go
to the custom-extension handler; a known type whose `extensions_sent` bit is
unset is rejected with an unsupported-extension alert unless it is the
renegotiation type; otherwise the type's bit is recorded in `received` and
its callback runs.  `Except.error a` carries the alert `*out_alert`. -/
def ssl_scan_serverhello_loop (ctx : SHScanCtx) (received : Nat) (c : CBS) :
    Except Nat Nat :=
  if _h0 : c.len = 0 then .ok received
  else
    match h1 : CBS_get_u16 ctx.buf c with
    | (none, _) => .error SSL_AD_DECODE_ERROR
    | (some ty, c1) =>
      match h2 : CBS_get_u16_length_prefixed ctx.buf c1 with
      | (none, _) => .error SSL_AD_DECODE_ERROR
      | (some extension, c2) =>
        match tls_extension_find ctx.registry ty with
        | none =>
          if ctx.custom_parse ty extension then
            ssl_scan_serverhello_loop ctx received c2
          else .error (ctx.custom_alert ty extension)
        | some ext_index =>
          if ¬ (ctx.extensions_sent.testBit ext_index) ∧
              ty ≠ TLSEXT_TYPE_renegotiate then
            .error SSL_AD_UNSUPPORTED_EXTENSION
          else if ctx.parse_serverhello ext_index extension then
            ssl_scan_serverhello_loop ctx (received ||| 2 ^ ext_index) c2
          else .error (ctx.parse_alert ext_index extension)
termination_by c.len
decreasing_by
  all_goals
    by_cases hA : c.len < 2
    · exfalso; simp [CBS_get_u16, cbs_get_u, cbs_get, hA] at h1
    · have h1' : c1 = ⟨c.off + 2, c.len - 2⟩ := by
        simp [CBS_get_u16, cbs_get_u, cbs_get, hA] at h1
        exact h1.2.symm
      subst h1'
      by_cases hB : c.len - 2 < 2
      · exfalso
        simp [CBS_get_u16_length_prefixed, cbs_get_length_prefixed, cbs_get_u,
          cbs_get, CBS_get_bytes, hB] at h2
      · by_cases hC : c.len - 2 - 2 < beVal ctx.buf (c.off + 2) 2
        · exfalso
          simp [CBS_get_u16_length_prefixed, cbs_get_length_prefixed, cbs_get_u,
            cbs_get, CBS_get_bytes, hB, hC] at h2
        · have h2' : c2 = ⟨c.off + 2 + 2 + beVal ctx.buf (c.off + 2) 2,
              c.len - 2 - 2 - beVal ctx.buf (c.off + 2) 2⟩ := by
            simp [CBS_get_u16_length_prefixed, cbs_get_length_prefixed, cbs_get_u,
              cbs_get, CBS_get_bytes, hB, hC] at h2
            exact h2.2.symm
          subst h2'
          simp only []
          omega

/-- The post-loop pass of `ssl_scan_serverhello_tlsext` (t1_lib.cc lines
3203-3215): every registry index whose `received` bit is unset has its
callback invoked with absent (`NULL`) contents. -/
def scan_absent_extensions (parse_absent : Nat → Bool) (absent_alert : Nat → Nat)
    (received : Nat) : List Nat → Except Nat Unit
  | [] => .ok ()
  | i :: rest =>
    if received.testBit i then
      scan_absent_extensions parse_absent absent_alert received rest
    else if parse_absent i then
      scan_absent_extensions parse_absent absent_alert received rest
    else .error (absent_alert i)

/-- `ssl_scan_serverhello_tlsext` (t1_lib.cc lines 3139-3218): an empty block
may be omitted before TLS 1.3; otherwise the u16-length-prefixed block must
pass the duplicate check, then the per-entry loop runs, then the absent-
extension pass. -/
def ssl_scan_serverhello_tlsext (ctx : SHScanCtx) (protocol_version : Nat)
    (parse_absent : Nat → Bool) (absent_alert : Nat → Nat) (c : CBS) :
    Except Nat Unit :=
  if CBS_len c = 0 ∧ protocol_version < TLS1_3_VERSION then .ok ()
  else
    match CBS_get_u16_length_prefixed ctx.buf c with
    | (none, _) => .error SSL_AD_DECODE_ERROR
    | (some extensions, _) =>
      if ¬ tls1_check_duplicate_extensions ctx.buf extensions then
        .error SSL_AD_DECODE_ERROR
      else
        match ssl_scan_serverhello_loop ctx 0 extensions with
        | .error a => .error a
        | .ok received =>
          scan_absent_extensions parse_absent absent_alert received
            (List.range ctx.registry.length)

/-! ## tls13_client.cc: the TLS 1.3 client handshake states -/

/-- `enum client_hs_state_t` (tls13_client.cc lines 35-49). -/
inductive ClientHSState
  | read_hello_retry_request
  | send_second_client_hello
  | read_server_hello
  | read_encrypted_extensions
  | read_certificate_request
  | read_server_certificate
  | read_server_certificate_verify
  | read_server_finished
  | send_end_of_early_data
  | send_client_certificate
  | send_client_certificate_verify
  | complete_second_flight
  | done
deriving DecidableEq, Repr

/-- The `enum ssl_hs_wait_t` values a state function of tls13_client.cc can
return. -/
inductive HSWait
  | ok
  | error
  | read_message
  | flush
  | early_data_rejected
deriving DecidableEq, Repr

/-- A handshake message as `SSLMessage` presents it: wire type and body
cursor. -/
structure SSLMessage where
  type : Nat
  body : CBS
deriving DecidableEq, Repr

/-- `SSL3_MT_SERVER_HELLO` (ssl3.h). -/
def SSL3_MT_SERVER_HELLO : Nat := 2

/-- `SSL3_MT_HELLO_RETRY_REQUEST` (ssl3.h, draft TLS 1.3). -/
def SSL3_MT_HELLO_RETRY_REQUEST : Nat := 6

/-- `SSL3_MT_CERTIFICATE_REQUEST` (ssl3.h). -/
def SSL3_MT_CERTIFICATE_REQUEST : Nat := 13

/-! ### `do_read_certificate_request` (tls13_client.cc lines 502-605) -/

/-- The inputs `do_read_certificate_request` consults.  `msgs` is the
pending-message queue: `ssl->method->get_message` peeks its head and
`ssl->method->next_message` pops it.  The two parse blocks call helpers
(`ssl_parse_extensions`, `tls1_parse_peer_sigalgs`,
`ssl_parse_client_CA_list`) that are not among the vendored sources, so each
block's combined outcome is an oracle boolean. -/
structure CertReqCtx where
  session_reused : Bool
  is_draft21 : Bool
  msgs : List SSLMessage
  parse_draft21_ok : Bool
  parse_legacy_ok : Bool
  hash_ok : Bool

/-- What one state function did: its return value, the assignment to
`hs->tls13_state` if it made one, and whether it consumed the head message
(`ssl->method->next_message`). -/
structure StepResult where
  ret : HSWait
  next : Option ClientHSState
  consumed : Bool
deriving DecidableEq, Repr

/-- `do_read_certificate_request` (tls13_client.cc lines 502-605).  On a
resumed session it jumps straight to `state_read_server_finished` before
touching the message queue; a non-CertificateRequest message jumps to
`state_read_server_certificate` without consuming; otherwise the
version-dependent parse block and the transcript hash must succeed before
the message is consumed. -/
def do_read_certificate_request (ctx : CertReqCtx) : StepResult :=
  if ctx.session_reused then ⟨.ok, some .read_server_finished, false⟩
  else
    match ctx.msgs.head? with
    | none => ⟨.read_message, none, false⟩
    | some msg =>
      if msg.type ≠ SSL3_MT_CERTIFICATE_REQUEST then
        ⟨.ok, some .read_server_certificate, false⟩
      else if ctx.is_draft21 ∧ ¬ ctx.parse_draft21_ok then ⟨.error, none, false⟩
      else if ¬ ctx.is_draft21 ∧ ¬ ctx.parse_legacy_ok then ⟨.error, none, false⟩
      else if ¬ ctx.hash_ok then ⟨.error, none, false⟩
      else ⟨.ok, some .read_server_certificate, true⟩

/-! ### `do_read_hello_retry_request` (tls13_client.cc lines 53-215) -/

/-- `tls1_check_group_id` (t1_lib.cc lines 402-410): membership of the group
id in the configured group list `tls1_get_grouplist(ssl)`. -/
def tls1_check_group_id (groups : List Nat) (group_id : Nat) : Bool :=
  groups.contains group_id

/-- The outcome of `ssl_parse_extensions` over the three extension types
`do_read_hello_retry_request` recognizes.  `ssl_parse_extensions` itself is
not among the vendored sources, so its outcome is an oracle input. -/
structure HRRExts where
  have_key_share : Bool
  key_share : CBS
  have_cookie : Bool
  cookie : CBS
  have_supported_versions : Bool
deriving DecidableEq, Repr

/-- The inputs of `do_read_hello_retry_request`.  Oracle fields stand for
calls into code outside the vendored sources (change-cipher-spec queueing,
cipher table lookup, transcript, extension pre-parse, cookie copy,
transcript hash); byte-level work on the message body stays byte-level. -/
structure HRRCtx where
  buf : Buf
  kHelloRetryRequest : List Nat
  is_draft22 : Bool
  is_draft21 : Bool
  early_data_offered : Bool
  add_ccs_ok : Bool
  msgs : List SSLMessage
  cipher_lookup_ok : Bool
  transcript_ok : Bool
  ext_parse : Option HRRExts
  ext_parse_alert : Nat
  supported_groups : List Nat
  offered_group : Nat
  cookie_copy_ok : Bool
  hash_ok : Bool
  in_early_data : Bool

/-- What `do_read_hello_retry_request` did: return value, state assignment,
message consumption, the fatal alert it sent (if any), and the
`hs->received_hello_retry_request` / `hs->retry_group` outputs. -/
structure HRRResult where
  ret : HSWait
  next : Option ClientHSState
  consumed : Bool
  alert : Option Nat
  received_hello_retry_request : Bool
  retry_group : Option Nat
deriving DecidableEq, Repr

/-- The draft22 HelloRetryRequest body parse (tls13_client.cc lines 76-89):
u16 version, 32-byte server random, u8-length-prefixed session id, u16
cipher suite, one byte skipped, u16-length-prefixed non-empty extensions,
nothing trailing.  Returns (server random, cipher suite, extensions). -/
def hrr_parse_body_draft22 (buf : Buf) (body : CBS) : Option (CBS × Nat × CBS) :=
  match CBS_get_u16 buf body with
  | (none, _) => none
  | (some _, b1) =>
    match CBS_get_bytes b1 SSL3_RANDOM_SIZE with
    | (none, _) => none
    | (some server_random, b2) =>
      match CBS_get_u8_length_prefixed buf b2 with
      | (none, _) => none
      | (some _, b3) =>
        match CBS_get_u16 buf b3 with
        | (none, _) => none
        | (some cipher_suite, b4) =>
          match CBS_skip b4 1 with
          | (none, _) => none
          | (some _, b5) =>
            match CBS_get_u16_length_prefixed buf b5 with
            | (none, _) => none
            | (some extensions, b6) =>
              if CBS_len extensions = 0 ∨ CBS_len b6 ≠ 0 then none
              else some (server_random, cipher_suite, extensions)

/-- The pre-draft22 HelloRetryRequest body parse (tls13_client.cc lines
101-111): u16 version, u16 cipher suite only under draft21 (`cipher_suite`
stays 0 otherwise), u16-length-prefixed extensions, nothing trailing. -/
def hrr_parse_body_legacy (buf : Buf) (is_draft21 : Bool) (body : CBS) :
    Option (Nat × CBS) :=
  match CBS_get_u16 buf body with
  | (none, _) => none
  | (some _, b1) =>
    match (if is_draft21 then CBS_get_u16 buf b1 else (some 0, b1)) with
    | (none, _) => none
    | (some cipher_suite, b2) =>
      match CBS_get_u16_length_prefixed buf b2 with
      | (none, _) => none
      | (some extensions, b3) =>
        if CBS_len b3 ≠ 0 then none else some (cipher_suite, extensions)

/-- The cookie handling of `do_read_hello_retry_request` (tls13_client.cc
lines 161-174): `some r` is an early error return, `none` means continue. -/
def hrr_cookie_step (ctx : HRRCtx) (exts : HRRExts) : Option HRRResult :=
  if exts.have_cookie then
    match CBS_get_u16_length_prefixed ctx.buf exts.cookie with
    | (none, _) => some ⟨.error, none, false, some SSL_AD_DECODE_ERROR, false, none⟩
    | (some cookie_value, rest) =>
      if CBS_len cookie_value = 0 ∨ CBS_len rest ≠ 0 then
        some ⟨.error, none, false, some SSL_AD_DECODE_ERROR, false, none⟩
      else if ¬ ctx.cookie_copy_ok then
        some ⟨.error, none, false, none, false, none⟩
      else none
  else none

/-- The key-share handling of `do_read_hello_retry_request` (tls13_client.cc
lines 176-201): the extension must be exactly a u16 group id, the group must
be supported, and it must differ from the group offered in the initial
ClientHello; on success `hs->retry_group` is the chosen group. -/
def hrr_key_share_step (ctx : HRRCtx) (exts : HRRExts) :
    Except HRRResult (Option Nat) :=
  if exts.have_key_share then
    match CBS_get_u16 ctx.buf exts.key_share with
    | (none, _) => .error ⟨.error, none, false, some SSL_AD_DECODE_ERROR, false, none⟩
    | (some group_id, rest) =>
      if CBS_len rest ≠ 0 then
        .error ⟨.error, none, false, some SSL_AD_DECODE_ERROR, false, none⟩
      else if ¬ tls1_check_group_id ctx.supported_groups group_id then
        .error ⟨.error, none, false, some SSL_AD_ILLEGAL_PARAMETER, false, none⟩
      else if ctx.offered_group = group_id then
        .error ⟨.error, none, false, some SSL_AD_ILLEGAL_PARAMETER, false, none⟩
      else .ok (some group_id)
  else .ok none

/-- The common tail of `do_read_hello_retry_request` once the message is a
genuine retry (tls13_client.cc lines 114-215): draft21 cipher and transcript
handling, extension pre-parse, the supported_versions restriction, the
neither-cookie-nor-key-share rejection, cookie and key-share steps,
transcript hash, then consume the message and move to
`state_send_second_client_hello` (rejecting 0-RTT if it was in flight). -/
def hrr_tail (ctx : HRRCtx) : HRRResult :=
  if ctx.is_draft21 ∧ ¬ ctx.cipher_lookup_ok then
    ⟨.error, none, false, some SSL_AD_ILLEGAL_PARAMETER, false, none⟩
  else if ctx.is_draft21 ∧ ¬ ctx.transcript_ok then
    ⟨.error, none, false, none, false, none⟩
  else
    match ctx.ext_parse with
    | none => ⟨.error, none, false, some ctx.ext_parse_alert, false, none⟩
    | some exts =>
      if ¬ ctx.is_draft22 ∧ exts.have_supported_versions then
        ⟨.error, none, false, some SSL_AD_UNSUPPORTED_EXTENSION, false, none⟩
      else if ¬ exts.have_cookie ∧ ¬ exts.have_key_share then
        ⟨.error, none, false, some SSL_AD_ILLEGAL_PARAMETER, false, none⟩
      else
        match hrr_cookie_step ctx exts with
        | some r => r
        | none =>
          match hrr_key_share_step ctx exts with
          | .error r => r
          | .ok retry_group =>
            if ¬ ctx.hash_ok then ⟨.error, none, false, none, false, retry_group⟩
            else
              ⟨(if ctx.in_early_data then .early_data_rejected else .ok),
                some .send_second_client_hello, true, none, true, retry_group⟩

/-- `do_read_hello_retry_request` (tls13_client.cc lines 53-215).  Under
draft22 the retry marker is the sentinel server random
`kHelloRetryRequest`; otherwise it is the distinct message type
`SSL3_MT_HELLO_RETRY_REQUEST`.  A non-retry first message transitions to
`state_read_server_hello` without consuming it. -/
def do_read_hello_retry_request (ctx : HRRCtx) : HRRResult :=
  match ctx.msgs.head? with
  | none => ⟨.read_message, none, false, none, false, none⟩
  | some msg =>
    if ctx.is_draft22 then
      if ¬ ctx.early_data_offered ∧ ¬ ctx.add_ccs_ok then
        ⟨.error, none, false, none, false, none⟩
      else if msg.type ≠ SSL3_MT_SERVER_HELLO then
        ⟨.error, none, false, some SSL_AD_UNEXPECTED_MESSAGE, false, none⟩
      else
        match hrr_parse_body_draft22 ctx.buf msg.body with
        | none => ⟨.error, none, false, some SSL_AD_DECODE_ERROR, false, none⟩
        | some (server_random, _, _) =>
          if ¬ CBS_mem_equal ctx.buf server_random ctx.kHelloRetryRequest then
            ⟨.ok, some .read_server_hello, false, none, false, none⟩
          else hrr_tail ctx
    else
      if msg.type ≠ SSL3_MT_HELLO_RETRY_REQUEST then
        ⟨.ok, some .read_server_hello, false, none, false, none⟩
      else
        match hrr_parse_body_legacy ctx.buf ctx.is_draft21 msg.body with
        | none => ⟨.error, none, false, some SSL_AD_DECODE_ERROR, false, none⟩
        | some _ => hrr_tail ctx

/-! ### `do_read_server_hello` (tls13_client.cc lines 237-442) -/

/-- The cipher-suite facts `do_read_server_hello` consults:
`SSL_CIPHER_get_min_version` / `SSL_CIPHER_get_max_version` and
`algorithm_prf`. -/
structure SSLCipher where
  min_version : Nat
  max_version : Nat
  algorithm_prf : Nat
deriving DecidableEq, Repr

/-- The fields of `ssl->session` that `do_read_server_hello` reads:
`ssl_version`, the session cipher's `algorithm_prf`, and the resumption
master key used to seed the key schedule. -/
structure SSLSession where
  ssl_version : Nat
  cipher_prf : Nat
  master_key : List Nat
deriving DecidableEq, Repr

/-- The outcome of `ssl_parse_extensions` over the three extension types
`do_read_server_hello` recognizes (oracle, the helper is not among the
vendored sources). -/
structure RSHExts where
  have_key_share : Bool
  key_share : CBS
  have_pre_shared_key : Bool
  pre_shared_key : CBS
  have_supported_versions : Bool
deriving DecidableEq, Repr

/-- A key-schedule operation, recorded in order of invocation:
`init s` is `tls13_init_key_schedule(hs, s, |s|)` and `advanceDHE s` is
`tls13_advance_key_schedule(hs, s, |s|)` with the resolved ECDHE secret. -/
inductive KSEvent
  | init (secret : List Nat)
  | advanceDHE (secret : List Nat)
deriving DecidableEq, Repr

/-- The inputs of `do_read_server_hello`.  Byte-level message parsing uses
`buf`; calls into code outside the vendored sources (cipher table, extension
pre-parse, PSK extension parse, session bookkeeping, the key-schedule and
traffic-key primitives) enter as oracle fields, in the order the function
consults them. -/
structure RSHCtx where
  buf : Buf
  kHelloRetryRequest : List Nat
  version : Nat
  protocol_version : Nat
  is_resumption_experiment : Bool
  is_draft22 : Bool
  is_draft21 : Bool
  is_resumption_client_ccs_experiment : Bool
  msgs : List SSLMessage
  received_hello_retry_request : Bool
  cipher_by_value : Nat → Option SSLCipher
  prev_cipher : Option SSLCipher
  ext_parse : Option RSHExts
  ext_parse_alert : Nat
  session : Option SSLSession
  psk_parse_ok : Bool
  psk_parse_alert : Nat
  session_context_valid : Bool
  session_dup_ok : Bool
  get_new_session_ok : Bool
  hash_len : Nat
  init_key_schedule_ok : Bool
  key_share_parse : Option (List Nat)
  key_share_alert : Nat
  advance_ok : Bool
  hash_ok : Bool
  derive_ok : Bool
  set_traffic_open_ok : Bool
  early_data_offered : Bool
  add_ccs_ok : Bool
  set_traffic_seal_ok : Bool

/-- What `do_read_server_hello` did, including the ordered trace of
key-schedule operations it invoked and the final `ssl->s3->session_reused`
flag. -/
structure RSHResult where
  ret : HSWait
  next : Option ClientHSState
  consumed : Bool
  alert : Option Nat
  session_reused : Bool
  ks_trace : List KSEvent
deriving DecidableEq, Repr

/-- An early `return` before any key-schedule operation ran. -/
structure EarlyExit where
  ret : HSWait
  alert : Option Nat
deriving DecidableEq, Repr

/-- The ServerHello body parse of `do_read_server_hello` (tls13_client.cc
lines 247-263): u16 version, 32-byte random, u8-length-prefixed session id
and a zero compression byte only under the resumption experiment, u16 cipher
suite, u16-length-prefixed extensions, nothing trailing. -/
def rsh_parse_body (buf : Buf) (is_resumption_experiment : Bool) (body : CBS) :
    Option (Nat × CBS × Nat × CBS) :=
  match CBS_get_u16 buf body with
  | (none, _) => none
  | (some server_version, b1) =>
    match CBS_get_bytes b1 SSL3_RANDOM_SIZE with
    | (none, _) => none
    | (some server_random, b2) =>
      match (if is_resumption_experiment then CBS_get_u8_length_prefixed buf b2
             else (some b2, b2)) with
      | (none, _) => none
      | (some _, b3) =>
        match CBS_get_u16 buf b3 with
        | (none, _) => none
        | (some cipher_suite, b4) =>
          match (if is_resumption_experiment then CBS_get_u8 buf b4
                 else (some 0, b4)) with
          | (none, _) => none
          | (some compression_method, b5) =>
            if is_resumption_experiment ∧ compression_method ≠ 0 then none
            else
              match CBS_get_u16_length_prefixed buf b5 with
              | (none, _) => none
              | (some extensions, b6) =>
                if CBS_len b6 ≠ 0 then none
                else some (server_version, server_random, cipher_suite, extensions)

/-- The checks of `do_read_server_hello` before any session or key-schedule
work (tls13_client.cc lines 239-329): message type, body parse, exact
version match, no second retry signature, TLS-1.3-class cipher, cipher match
with the retry's, extension pre-parse, supported_versions restriction. -/
def rsh_prelude (ctx : RSHCtx) : Except EarlyExit (SSLCipher × RSHExts) :=
  match ctx.msgs.head? with
  | none => .error ⟨.read_message, none⟩
  | some msg =>
    if msg.type ≠ SSL3_MT_SERVER_HELLO then
      .error ⟨.error, some SSL_AD_UNEXPECTED_MESSAGE⟩
    else
      match rsh_parse_body ctx.buf ctx.is_resumption_experiment msg.body with
      | none => .error ⟨.error, some SSL_AD_DECODE_ERROR⟩
      | some (server_version, server_random, cipher_suite, _) =>
        if server_version ≠ (if ctx.is_resumption_experiment then TLS1_2_VERSION
            else ctx.version) then
          .error ⟨.error, some SSL_AD_DECODE_ERROR⟩
        else if ctx.is_draft22 ∧
            CBS_mem_equal ctx.buf server_random ctx.kHelloRetryRequest then
          .error ⟨.error, some SSL_AD_UNEXPECTED_MESSAGE⟩
        else
          match ctx.cipher_by_value cipher_suite with
          | none => .error ⟨.error, some SSL_AD_ILLEGAL_PARAMETER⟩
          | some cipher =>
            if ctx.protocol_version < cipher.min_version ∨
                cipher.max_version < ctx.protocol_version then
              .error ⟨.error, some SSL_AD_ILLEGAL_PARAMETER⟩
            else if ctx.is_draft21 ∧ ctx.received_hello_retry_request ∧
                ctx.prev_cipher ≠ some cipher then
              .error ⟨.error, some SSL_AD_ILLEGAL_PARAMETER⟩
            else
              match ctx.ext_parse with
              | none => .error ⟨.error, some ctx.ext_parse_alert⟩
              | some exts =>
                if exts.have_supported_versions ∧
                    ¬ ctx.is_resumption_experiment then
                  .error ⟨.error, some SSL_AD_UNSUPPORTED_EXTENSION⟩
                else .ok (cipher, exts)

/-- The pre-shared-key branch of `do_read_server_hello` (tls13_client.cc
lines 331-380): with a PSK extension present the offered session must exist
and be compatible (same version, same PRF hash, same context) before
`session_reused` is set and its master key carried over; otherwise a fresh
session is created.  Returns (`session_reused`, resumption master key). -/
def rsh_psk_phase (ctx : RSHCtx) (cipher : SSLCipher) (exts : RSHExts) :
    Except EarlyExit (Bool × List Nat) :=
  if exts.have_pre_shared_key then
    match ctx.session with
    | none => .error ⟨.error, some SSL_AD_UNSUPPORTED_EXTENSION⟩
    | some sess =>
      if ¬ ctx.psk_parse_ok then .error ⟨.error, some ctx.psk_parse_alert⟩
      else if sess.ssl_version ≠ ctx.version then
        .error ⟨.error, some SSL_AD_ILLEGAL_PARAMETER⟩
      else if sess.cipher_prf ≠ cipher.algorithm_prf then
        .error ⟨.error, some SSL_AD_ILLEGAL_PARAMETER⟩
      else if ¬ ctx.session_context_valid then
        .error ⟨.error, some SSL_AD_ILLEGAL_PARAMETER⟩
      else if ¬ ctx.session_dup_ok then
        .error ⟨.error, some SSL_AD_INTERNAL_ERROR⟩
      else .ok (true, sess.master_key)
  else if ¬ ctx.get_new_session_ok then .error ⟨.error, some SSL_AD_INTERNAL_ERROR⟩
  else .ok (false, [])

/-- `kZeroes` (tls13_client.cc line 51), sized to the handshake hash. -/
def kZeroes (n : Nat) : List Nat := List.replicate n 0

/-- The key-schedule section of `do_read_server_hello` (tls13_client.cc
lines 385-441): initialize the schedule with the resumption PSK or the
all-zero placeholder of hash length, require a key share, resolve the ECDHE
secret, fold it in, hash the message, derive handshake secrets, install
traffic keys, then consume the message and advance. -/
def rsh_key_schedule_phase (ctx : RSHCtx) (exts : RSHExts) (reused : Bool)
    (psk : List Nat) : RSHResult :=
  let secret0 := if reused then psk else kZeroes ctx.hash_len
  let tr0 := [KSEvent.init secret0]
  if ¬ ctx.init_key_schedule_ok then ⟨.error, none, false, none, reused, tr0⟩
  else if ¬ exts.have_key_share then
    ⟨.error, none, false, some SSL_AD_MISSING_EXTENSION, reused, tr0⟩
  else
    match ctx.key_share_parse with
    | none => ⟨.error, none, false, some ctx.key_share_alert, reused, tr0⟩
    | some dhe_secret =>
      let tr := tr0 ++ [KSEvent.advanceDHE dhe_secret]
      if ¬ ctx.advance_ok ∨ ¬ ctx.hash_ok ∨ ¬ ctx.derive_ok ∨
          ¬ ctx.set_traffic_open_ok then
        ⟨.error, none, false, none, reused, tr⟩
      else if ¬ ctx.early_data_offered ∧
          ctx.is_resumption_client_ccs_experiment ∧ ¬ ctx.is_draft22 ∧
          ¬ ctx.add_ccs_ok then
        ⟨.error, none, false, none, reused, tr⟩
      else if ¬ ctx.early_data_offered ∧ ¬ ctx.set_traffic_seal_ok then
        ⟨.error, none, false, none, reused, tr⟩
      else ⟨.ok, some .read_encrypted_extensions, true, none, reused, tr⟩

/-- `do_read_server_hello` (tls13_client.cc lines 237-442), as the
composition of its three phases in source order. -/
def do_read_server_hello (ctx : RSHCtx) : RSHResult :=
  match rsh_prelude ctx with
  | .error e => ⟨e.ret, none, false, e.alert, false, []⟩
  | .ok (cipher, exts) =>
    match rsh_psk_phase ctx cipher exts with
    | .error e => ⟨e.ret, none, false, e.alert, false, []⟩
    | .ok (reused, psk) => rsh_key_schedule_phase ctx exts reused psk

/-! ### `tls13_process_new_session_ticket` (tls13_client.cc lines 896-975) -/

/-- The inputs of `tls13_process_new_session_ticket`.  `timeout0` is
`session->timeout` of the duplicated established session after
`ssl_session_rebase_time` (both helpers live outside the vendored sources);
`ext_parse` is the `ssl_parse_extensions` oracle: `none` is a parse failure,
`some none` success without an early-data extension, `some (some v)` success
with that extension's contents. -/
structure TicketCtx where
  buf : Buf
  body : CBS
  write_shutdown : Bool
  dup_ok : Bool
  timeout0 : Nat
  max_early_data0 : Nat
  is_draft21 : Bool
  derive_psk_ok : Bool
  ext_parse : Option (Option CBS)
  enable_early_data : Bool

/-- The session fields `tls13_process_new_session_ticket` stores. -/
structure TicketSession where
  ticket_age_add : Nat
  ticket : List Nat
  timeout : Nat
  ticket_max_early_data : Nat
deriving DecidableEq, Repr

/-- The NewSessionTicket body parse (tls13_client.cc lines 912-925): u32
lifetime, u32 ticket_age_add, u8-length-prefixed nonce only under draft21,
u16-length-prefixed ticket (stowed), u16-length-prefixed extensions, nothing
trailing. -/
def ticket_parse_body (buf : Buf) (is_draft21 : Bool) (body : CBS) :
    Option (Nat × Nat × List Nat) :=
  match CBS_get_u32 buf body with
  | (none, _) => none
  | (some server_timeout, b1) =>
    match CBS_get_u32 buf b1 with
    | (none, _) => none
    | (some ticket_age_add, b2) =>
      match (if is_draft21 then CBS_get_u8_length_prefixed buf b2
             else (some b2, b2)) with
      | (none, _) => none
      | (some _, b3) =>
        match CBS_get_u16_length_prefixed buf b3 with
        | (none, _) => none
        | (some ticket, b4) =>
          match CBS_get_u16_length_prefixed buf b4 with
          | (none, _) => none
          | (some _, b5) =>
            if CBS_len b5 ≠ 0 then none
            else some (server_timeout, ticket_age_add, CBS_stow buf ticket)

/-- `tls13_process_new_session_ticket` (tls13_client.cc lines 896-975).
Returns the C `int` result and, when a session was populated, its stored
fields.  On shutdown the function returns 1 without a session; after the
body parse the stored timeout is capped at the server-advertised lifetime
(`if (session->timeout > server_timeout) session->timeout =
server_timeout`); the early-data extension contents must be exactly a u32
when present and early data is enabled locally. -/
def tls13_process_new_session_ticket (ctx : TicketCtx) :
    Bool × Option TicketSession :=
  if ctx.write_shutdown then (true, none)
  else if ¬ ctx.dup_ok then (false, none)
  else
    match ticket_parse_body ctx.buf ctx.is_draft21 ctx.body with
    | none => (false, none)
    | some (server_timeout, ticket_age_add, ticket) =>
      let timeout1 := if ctx.timeout0 > server_timeout then server_timeout
        else ctx.timeout0
      if ¬ ctx.derive_psk_ok then (false, none)
      else
        match ctx.ext_parse with
        | none => (false, none)
        | some early_data_info =>
          match early_data_info with
          | some info =>
            if ctx.enable_early_data then
              match CBS_get_u32 ctx.buf info with
              | (none, _) => (false, none)
              | (some max_early_data, rest) =>
                if CBS_len rest ≠ 0 then (false, none)
                else (true, some ⟨ticket_age_add, ticket, timeout1, max_early_data⟩)
            else (true, some ⟨ticket_age_add, ticket, timeout1, ctx.max_early_data0⟩)
          | none => (true, some ⟨ticket_age_add, ticket, timeout1, ctx.max_early_data0⟩)

/-!
# Theorems

One theorem (plus counterexample/witness where applicable) per claim,
with shared helper lemmas preceding the claim theorems they serve.
-/

/-- C1 as stated is false at a concrete input: `CBS_get_u8_length_prefixed`
on the two bytes `02 00` reads the length prefix 2, finds only one byte
remaining, fails — and leaves the cursor advanced past the prefix (offset 1,
length 1), not byte-for-byte unchanged, so a caller cannot retry on the same
cursor after this failure. -/
theorem c1_counterexample :
    (CBS_get_u8_length_prefixed [2, 0] ⟨0, 2⟩).1 = none ∧
    (CBS_get_u8_length_prefixed [2, 0] ⟨0, 2⟩).2 ≠ (⟨0, 2⟩ : CBS) := by
  decide

/-- C1 (amended): every plain getter (`CBS_skip`, `CBS_get_u8/u16/u24/u32`,
`CBS_get_bytes`, `CBS_get_last_u8`) either succeeds consuming exactly the
requested bytes or fails with the cursor byte-for-byte unchanged (same data
pointer, same length); the length-prefixed getters are atomic only in their
length-prefix read — when the prefix parses but fewer bytes remain than it
declares, they fail with the cursor already advanced past the prefix. -/
theorem c1_cursor_atomicity (buf : Buf) (c : CBS) (n : Nat) :
    CBS_skip c n =
      (if n ≤ c.len then (some (), ⟨c.off + n, c.len - n⟩) else (none, c)) ∧
    CBS_get_u8 buf c =
      (if 1 ≤ c.len then (some (byteAt buf c.off), ⟨c.off + 1, c.len - 1⟩)
       else (none, c)) ∧
    CBS_get_u16 buf c =
      (if 2 ≤ c.len then (some (beVal buf c.off 2), ⟨c.off + 2, c.len - 2⟩)
       else (none, c)) ∧
    CBS_get_u24 buf c =
      (if 3 ≤ c.len then (some (beVal buf c.off 3), ⟨c.off + 3, c.len - 3⟩)
       else (none, c)) ∧
    CBS_get_u32 buf c =
      (if 4 ≤ c.len then (some (beVal buf c.off 4), ⟨c.off + 4, c.len - 4⟩)
       else (none, c)) ∧
    CBS_get_bytes c n =
      (if n ≤ c.len then (some ⟨c.off, n⟩, ⟨c.off + n, c.len - n⟩)
       else (none, c)) ∧
    CBS_get_last_u8 buf c =
      (if 1 ≤ c.len then
        (some (byteAt buf (c.off + c.len - 1)), ⟨c.off, c.len - 1⟩)
       else (none, c)) ∧
    (∀ w, cbs_get_length_prefixed buf c w =
      (if w ≤ c.len then
        (if beVal buf c.off w ≤ c.len - w then
          (some ⟨c.off + w, beVal buf c.off w⟩,
           ⟨c.off + w + beVal buf c.off w, c.len - w - beVal buf c.off w⟩)
         else (none, ⟨c.off + w, c.len - w⟩))
       else (none, c))) := by
  refine ⟨?_, ?_, ?_, ?_, ?_, ?_, ?_, ?_⟩
  · simp only [CBS_skip, cbs_get]
    split_ifs with h h' <;> simp_all <;> omega
  · simp only [CBS_get_u8, cbs_get]
    split_ifs with h h' <;> simp_all <;> omega
  · simp only [CBS_get_u16, cbs_get_u, cbs_get]
    split_ifs with h h' <;> simp_all <;> omega
  · simp only [CBS_get_u24, cbs_get_u, cbs_get]
    split_ifs with h h' <;> simp_all <;> omega
  · simp only [CBS_get_u32, cbs_get_u, cbs_get]
    split_ifs with h h' <;> simp_all <;> omega
  · simp only [CBS_get_bytes, cbs_get]
    split_ifs with h h' <;> simp_all <;> omega
  · simp only [CBS_get_last_u8]
    split_ifs with h h' <;> simp_all <;> omega
  · intro w
    simp only [cbs_get_length_prefixed, cbs_get_u, cbs_get, CBS_get_bytes]
    split_ifs with h h' <;> dsimp only <;> (try split_ifs with g) <;>
      first
        | rfl
        | (exfalso; omega)

/-- C2 as stated is false at a concrete input: with `session_reused` set,
`do_read_certificate_request` jumps to `state_read_server_finished` (also
skipping the Certificate and CertificateVerify read states), not to
`state_read_server_certificate` as the claim says. -/
theorem c2_counterexample :
    do_read_certificate_request ⟨true, false, [], true, true, true⟩ =
      ⟨.ok, some .read_server_finished, false⟩ ∧
    some ClientHSState.read_server_finished ≠
      some ClientHSState.read_server_certificate := by
  decide

/-- C2 (amended): when the session was resumed, `ReadCertificateRequest` is
skipped entirely with a direct jump to the `ReadServerFinished` state (the
whole server-certificate flight is skipped, not just this state), without
reading or consuming any message. -/
theorem c2_resumption_skip (ctx : CertReqCtx) (h : ctx.session_reused = true) :
    do_read_certificate_request ctx = ⟨.ok, some .read_server_finished, false⟩ := by
  simp [do_read_certificate_request, h]

/-- Witness for `c2_resumption_skip` at a concrete context. -/
theorem c2_resumption_skip_witness :
    do_read_certificate_request ⟨true, true, [⟨13, ⟨0, 0⟩⟩], false, false, false⟩ =
      ⟨.ok, some .read_server_finished, false⟩ :=
  c2_resumption_skip ⟨true, true, [⟨13, ⟨0, 0⟩⟩], false, false, false⟩ rfl

/-- C3 as stated is false at a concrete input: a projected ClientHello
length of 511 bytes lies strictly between 255 and 512, a padding extension
is appended (with the minimum one content byte), yet the resulting length is
516, not exactly 512. -/
theorem c3_counterexample :
    clienthello_padding_len 511 = some 1 ∧
    clienthello_len_after_padding 511 = 516 ∧ (516 : Nat) ≠ 512 := by
  decide

/-- C3 (amended): for a projected non-DTLS ClientHello length strictly
between 255 and 512 a padding extension is always appended; it tops the
length up to exactly 512 when the projected length is at most 507, while for
projected lengths 508-511 the minimum five-byte extension overshoots to
projected + 5 (513-516).  Outside the open range (255, 512) no padding
extension is added and the length is unchanged. -/
theorem c3_padding_range (n : Nat) :
    (255 < n ∧ n < 512 →
      (clienthello_padding_len n).isSome = true ∧
      (n ≤ 507 → clienthello_len_after_padding n = 512) ∧
      (508 ≤ n → clienthello_len_after_padding n = n + 5)) ∧
    (¬ (255 < n ∧ n < 512) →
      clienthello_padding_len n = none ∧
      clienthello_len_after_padding n = n) := by
  constructor
  · rintro ⟨h1, h2⟩
    have hb : (n > 255 && n < 512) = true := by
      simp [decide_eq_true_iff]
      omega
    refine ⟨?_, ?_, ?_⟩
    · simp [clienthello_padding_len, hb]
    · intro hle
      simp [clienthello_len_after_padding, clienthello_padding_len, hb]
      split_ifs with h <;> omega
    · intro hge
      simp [clienthello_len_after_padding, clienthello_padding_len, hb]
      split_ifs with h <;> omega
  · intro h
    have hb : (n > 255 && n < 512) = false := by
      simp [decide_eq_true_iff]
      omega
    simp [clienthello_padding_len, clienthello_len_after_padding, hb]

/-- On a list sorted by `≤`, having no adjacent equal elements is the same
as having no duplicates at all (the correctness argument for the
sort-then-compare-neighbours strategy of `tls1_check_duplicate_extensions`). -/
theorem sorted_noAdjacentDup_iff_nodup :
    ∀ (l : List Nat), l.Sorted (· ≤ ·) → (noAdjacentDup l = true ↔ l.Nodup)
  | [] => by simp [noAdjacentDup]
  | [a] => by simp [noAdjacentDup]
  | a :: b :: u => by
    intro hs
    rw [List.sorted_cons] at hs
    obtain ⟨ha, hs'⟩ := hs
    have ih := sorted_noAdjacentDup_iff_nodup (b :: u) hs'
    simp only [noAdjacentDup, Bool.and_eq_true, decide_eq_true_eq]
    constructor
    · rintro ⟨hab, hadj⟩
      have hnd := ih.mp hadj
      refine List.nodup_cons.mpr ⟨?_, hnd⟩
      intro hmem
      rcases List.mem_cons.mp hmem with h | h
      · exact hab h
      · have h1 : a ≤ b := ha b (List.mem_cons_self b u)
        have h2 : b ≤ a := (List.sorted_cons.mp hs').1 a h
        exact hab (Nat.le_antisymm h1 h2)
    · intro hnd
      rcases List.nodup_cons.mp hnd with ⟨hnotmem, hnd'⟩
      exact ⟨fun h => hnotmem (h ▸ List.mem_cons_self b u), ih.mpr hnd'⟩

/-- C4: for every well-formed extension block (one whose scan succeeds,
yielding its list of type ids), the duplicate check accepts exactly when no
two entries share a type id; in particular any block with two equal type ids
is rejected.  The check itself counts, collects, sorts and compares
neighbours, as embedded in `tls1_check_duplicate_extensions`. -/
theorem c4_duplicate_check_iff_nodup (buf : Buf) (c : CBS) (types : List Nat)
    (h : collectExtTypes buf c = some types) :
    (tls1_check_duplicate_extensions buf c = true ↔ types.Nodup) := by
  unfold tls1_check_duplicate_extensions
  rw [h]
  by_cases h0 : types.length = 0
  · simp [h0, List.length_eq_zero.mp h0]
  · simp only [h0, if_neg, if_false]
    have hsorted : (List.insertionSort (· ≤ ·) types).Sorted (· ≤ ·) :=
      List.sorted_insertionSort (· ≤ ·) types
    rw [sorted_noAdjacentDup_iff_nodup _ hsorted]
    exact (List.perm_insertionSort (· ≤ ·) types).nodup_iff

/-- Witness for `c4_duplicate_check_iff_nodup`: the two-entry block
`00 01 00 00 00 02 00 00` (types 1 and 2, empty contents) scans to `[1, 2]`,
and the duplicate check accepts it. -/
theorem c4_duplicate_check_witness :
    collectExtTypes [0, 1, 0, 0, 0, 2, 0, 0] ⟨0, 8⟩ = some [1, 2] ∧
    tls1_check_duplicate_extensions [0, 1, 0, 0, 0, 2, 0, 0] ⟨0, 8⟩ = true := by
  have hparse : collectExtTypes [0, 1, 0, 0, 0, 2, 0, 0] ⟨0, 8⟩ = some [1, 2] := by
    simp [collectExtTypes, CBS_get_u16, cbs_get_u, cbs_get,
      CBS_get_u16_length_prefixed, cbs_get_length_prefixed, CBS_get_bytes,
      beVal, byteAt]
  exact ⟨hparse,
    (c4_duplicate_check_iff_nodup _ _ _ hparse).mpr (by decide)⟩

/-- What a successful PSK phase says about its outputs: resumption carries
the offered session's master key, a fresh session carries no PSK. -/
theorem rsh_psk_phase_spec (ctx : RSHCtx) (cipher : SSLCipher) (exts : RSHExts)
    (reused : Bool) (psk : List Nat)
    (h : rsh_psk_phase ctx cipher exts = .ok (reused, psk)) :
    (reused = true → ∃ sess, ctx.session = some sess ∧ psk = sess.master_key) ∧
    (reused = false → psk = []) := by
  unfold rsh_psk_phase at h
  split at h
  · split at h
    · exact absurd h (by simp)
    · split_ifs at h <;> simp_all
  · split_ifs at h <;> simp_all

/-- The key-schedule phase always records the init event first, with the PSK
on resumption and the zero placeholder otherwise, and records at most one
DHE advance after it. -/
theorem rsh_ks_phase_trace (ctx : RSHCtx) (exts : RSHExts) (reused : Bool)
    (psk : List Nat) :
    (rsh_key_schedule_phase ctx exts reused psk).session_reused = reused ∧
    ((rsh_key_schedule_phase ctx exts reused psk).ks_trace =
        [KSEvent.init (if reused then psk else kZeroes ctx.hash_len)] ∨
      ∃ d, ctx.key_share_parse = some d ∧
        (rsh_key_schedule_phase ctx exts reused psk).ks_trace =
          [KSEvent.init (if reused then psk else kZeroes ctx.hash_len),
            KSEvent.advanceDHE d]) := by
  unfold rsh_key_schedule_phase
  split_ifs <;> try simp
  all_goals
    rcases hks : ctx.key_share_parse with _ | d <;> simp [hks] <;>
      split_ifs <;> simp

/-- C5: on every execution path of `do_read_server_hello`, the key-schedule
trace is empty, or consists of one init, or of one init followed by one DHE
advance — the DHE secret is never folded in before the init — and the init
secret is the resumption PSK (the offered session's master key) exactly when
the session was resumed, the all-zero placeholder of handshake-hash length
when fresh. -/
theorem c5_psk_then_dhe (ctx : RSHCtx) :
    ((do_read_server_hello ctx).ks_trace = [] ∨
      (∃ s, (do_read_server_hello ctx).ks_trace = [KSEvent.init s]) ∨
      (∃ s d, (do_read_server_hello ctx).ks_trace =
        [KSEvent.init s, KSEvent.advanceDHE d])) ∧
    (∀ s rest, (do_read_server_hello ctx).ks_trace = KSEvent.init s :: rest →
      ((do_read_server_hello ctx).session_reused = true →
        ∃ sess, ctx.session = some sess ∧ s = sess.master_key) ∧
      ((do_read_server_hello ctx).session_reused = false →
        s = kZeroes ctx.hash_len)) := by
  unfold do_read_server_hello
  cases hpre : rsh_prelude ctx with
  | error e => simp [hpre]
  | ok pr =>
    obtain ⟨cipher, exts⟩ := pr
    simp only [hpre]
    cases hpsk : rsh_psk_phase ctx cipher exts with
    | error e => simp [hpsk]
    | ok pr2 =>
      obtain ⟨reused, psk⟩ := pr2
      simp only [hpsk]
      obtain ⟨hreused, htrace⟩ := rsh_ks_phase_trace ctx exts reused psk
      obtain ⟨hr1, hr2⟩ := rsh_psk_phase_spec ctx cipher exts reused psk hpsk
      constructor
      · rcases htrace with h | ⟨d, _, h⟩
        · exact Or.inr (Or.inl ⟨_, h⟩)
        · exact Or.inr (Or.inr ⟨_, d, h⟩)
      · intro s rest hhead
        have hs : s = if reused then psk else kZeroes ctx.hash_len := by
          rcases htrace with h | ⟨d, _, h⟩ <;> rw [hhead] at h <;>
            simp only [List.cons.injEq, KSEvent.init.injEq] at h <;>
            exact h.1
        constructor
        · intro hr
          rw [hreused] at hr
          subst hr
          simp only [if_true] at hs
          obtain ⟨sess, hsess, hpskeq⟩ := hr1 rfl
          exact ⟨sess, hsess, hs ▸ hpskeq⟩
        · intro hr
          rw [hreused] at hr
          subst hr
          simpa using hs

/-- C6: a genuine HelloRetryRequest (one that routes into the common tail,
with the draft21 cipher checks and the extension pre-parse passing) fails
with an illegal_parameter alert when it carries neither a cookie nor a
key_share extension; and when a key_share is present, carrying exactly a
supported group id equal to the group the client already offered, it also
fails with an illegal_parameter alert.  The last conjunct shows a genuine
retry (pre-draft22 form) indeed routes `do_read_hello_retry_request` into
that tail. -/
theorem c6_hello_retry_request_checks (ctx : HRRCtx) (exts : HRRExts)
    (h1 : ctx.ext_parse = some exts)
    (h2 : ctx.is_draft21 = true →
      ctx.cipher_lookup_ok = true ∧ ctx.transcript_ok = true)
    (h3 : ctx.is_draft22 = false → exts.have_supported_versions = false) :
    (exts.have_cookie = false → exts.have_key_share = false →
      hrr_tail ctx =
        ⟨.error, none, false, some SSL_AD_ILLEGAL_PARAMETER, false, none⟩) ∧
    (∀ gid rest, exts.have_key_share = true →
      CBS_get_u16 ctx.buf exts.key_share = (some gid, rest) →
      CBS_len rest = 0 →
      tls1_check_group_id ctx.supported_groups gid = true →
      ctx.offered_group = gid →
      hrr_cookie_step ctx exts = none →
      hrr_tail ctx =
        ⟨.error, none, false, some SSL_AD_ILLEGAL_PARAMETER, false, none⟩) ∧
    (∀ msg pr, ctx.msgs.head? = some msg → ctx.is_draft22 = false →
      msg.type = SSL3_MT_HELLO_RETRY_REQUEST →
      hrr_parse_body_legacy ctx.buf ctx.is_draft21 msg.body = some pr →
      do_read_hello_retry_request ctx = hrr_tail ctx) := by
  refine ⟨?_, ?_, ?_⟩
  · intro hc hk
    unfold hrr_tail
    rw [h1]
    split_ifs with g1 g2 g3 g4 <;> simp_all
  · intro gid rest hk hparse hlen hgrp hoff hcookie
    unfold hrr_tail
    rw [h1]
    have hks : hrr_key_share_step ctx exts =
        .error ⟨.error, none, false, some SSL_AD_ILLEGAL_PARAMETER, false, none⟩ := by
      unfold hrr_key_share_step
      rw [if_pos hk, hparse]
      dsimp only
      rw [if_neg (by simp [hlen]), if_neg (by simp [hgrp]), if_pos hoff]
    split_ifs with g1 g2 g3 g4 <;> simp_all [hcookie, hks]
  · intro msg pr hhead hd22 htype hbody
    unfold do_read_hello_retry_request
    rw [hhead]
    simp [hd22, htype, hbody]

/-- Witness for `c6_hello_retry_request_checks`: a retry with neither cookie
nor key share, and a retry whose key share names the already-offered group 5,
both fail with the illegal_parameter alert. -/
theorem c6_hello_retry_request_witness :
    hrr_tail ⟨[], [], true, false, false, true, [], true, true,
        some ⟨false, ⟨0, 0⟩, false, ⟨0, 0⟩, false⟩, 50, [], 0, true, true, false⟩ =
      ⟨.error, none, false, some SSL_AD_ILLEGAL_PARAMETER, false, none⟩ ∧
    hrr_tail ⟨[0, 5], [], true, false, false, true, [], true, true,
        some ⟨true, ⟨0, 2⟩, false, ⟨0, 0⟩, false⟩, 50, [5], 5, true, true, false⟩ =
      ⟨.error, none, false, some SSL_AD_ILLEGAL_PARAMETER, false, none⟩ := by
  constructor
  · exact (c6_hello_retry_request_checks
      ⟨[], [], true, false, false, true, [], true, true,
        some ⟨false, ⟨0, 0⟩, false, ⟨0, 0⟩, false⟩, 50, [], 0, true, true, false⟩
      ⟨false, ⟨0, 0⟩, false, ⟨0, 0⟩, false⟩ rfl (by decide) (by decide)).1 rfl rfl
  · exact (c6_hello_retry_request_checks
      ⟨[0, 5], [], true, false, false, true, [], true, true,
        some ⟨true, ⟨0, 2⟩, false, ⟨0, 0⟩, false⟩, 50, [5], 5, true, true, false⟩
      ⟨true, ⟨0, 2⟩, false, ⟨0, 0⟩, false⟩ rfl (by decide) (by decide)).2.1
      5 ⟨2, 0⟩ rfl (by decide) rfl (by decide) rfl (by decide)

/-- C7: while scanning a ServerHello extension block, an extension whose
type is found in the registry but whose `extensions_sent` bit is unset makes
the scan fail hard with the unsupported_extension alert — except the legacy
renegotiation type, which is accepted (the scan records it and continues)
even with its sent bit unset. -/
theorem c7_unsent_extension_rejected (ctx : SHScanCtx) (received : Nat)
    (c : CBS) (ty : Nat) (c1 : CBS) (extension : CBS) (c2 : CBS) (idx : Nat)
    (h1 : CBS_get_u16 ctx.buf c = (some ty, c1))
    (h2 : CBS_get_u16_length_prefixed ctx.buf c1 = (some extension, c2))
    (h3 : tls_extension_find ctx.registry ty = some idx)
    (h4 : ctx.extensions_sent.testBit idx = false) :
    (ty ≠ TLSEXT_TYPE_renegotiate →
      ssl_scan_serverhello_loop ctx received c =
        .error SSL_AD_UNSUPPORTED_EXTENSION) ∧
    (ty = TLSEXT_TYPE_renegotiate → ctx.parse_serverhello idx extension = true →
      ssl_scan_serverhello_loop ctx received c =
        ssl_scan_serverhello_loop ctx (received ||| 2 ^ idx) c2) := by
  have hne : ¬(c.len = 0) := by
    intro h0
    simp [CBS_get_u16, cbs_get_u, cbs_get, h0] at h1
  have hred : ∀ r : Nat, ssl_scan_serverhello_loop ctx r c =
      (if ¬ (ctx.extensions_sent.testBit idx) ∧ ty ≠ TLSEXT_TYPE_renegotiate then
        .error SSL_AD_UNSUPPORTED_EXTENSION
      else if ctx.parse_serverhello idx extension then
        ssl_scan_serverhello_loop ctx (r ||| 2 ^ idx) c2
      else .error (ctx.parse_alert idx extension)) := by
    intro r
    rw [ssl_scan_serverhello_loop.eq_def, dif_neg hne]
    split
    · rename_i heq
      rw [h1] at heq
      exact absurd heq (by simp)
    · rename_i ty' c1' heq
      rw [h1] at heq
      obtain ⟨h5, h6⟩ : ty = ty' ∧ c1 = c1' := by simpa [Prod.ext_iff] using heq
      subst h5
      subst h6
      split
      · rename_i heq2
        rw [h2] at heq2
        exact absurd heq2 (by simp)
      · rename_i ext' c2' heq2
        rw [h2] at heq2
        obtain ⟨h7, h8⟩ : extension = ext' ∧ c2 = c2' := by
          simpa [Prod.ext_iff] using heq2
        subst h7
        subst h8
        rw [h3]
  constructor
  · intro hty
    rw [hred received, if_pos ⟨by simp [h4], hty⟩]
  · intro hty hparse
    rw [hred received, if_neg (by simp [hty]), if_pos hparse]

/-- Witness for `c7_unsent_extension_rejected`: a block holding one
extension of registry type 5 (registry `[0xff01, 5]`, so index 1) with no
sent bits set is rejected with the unsupported_extension alert. -/
theorem c7_unsent_extension_witness :
    ssl_scan_serverhello_loop
      ⟨[0, 5, 0, 0], [0xff01, 5], 0, fun _ _ => true, fun _ _ => 50,
        fun _ _ => true, fun _ _ => 50⟩ 0 ⟨0, 4⟩ =
      .error SSL_AD_UNSUPPORTED_EXTENSION :=
  (c7_unsent_extension_rejected
    ⟨[0, 5, 0, 0], [0xff01, 5], 0, fun _ _ => true, fun _ _ => 50,
      fun _ _ => true, fun _ _ => 50⟩ 0 ⟨0, 4⟩ 5 ⟨2, 2⟩ ⟨4, 0⟩ ⟨4, 0⟩ 1
    (by decide) (by decide) (by decide) (by decide)).1 (by decide)

/-- Every early exit of the ServerHello prelude suspends or errors; none
reports success. -/
theorem rsh_prelude_error_ret (ctx : RSHCtx) (e : EarlyExit)
    (h : rsh_prelude ctx = .error e) : e.ret ≠ HSWait.ok := by
  unfold rsh_prelude at h
  repeat' split at h
  all_goals first
    | (cases h; simp)
    | simp_all

/-- Every early exit of the PSK phase is an error; none reports success. -/
theorem rsh_psk_phase_error_ret (ctx : RSHCtx) (cipher : SSLCipher)
    (exts : RSHExts) (e : EarlyExit)
    (h : rsh_psk_phase ctx cipher exts = .error e) : e.ret ≠ HSWait.ok := by
  unfold rsh_psk_phase at h
  repeat' split at h
  all_goals first
    | (cases h; simp)
    | simp_all

/-- The key-schedule phase consumes the message exactly when it returns
`ok`. -/
theorem rsh_ks_phase_consumed (ctx : RSHCtx) (exts : RSHExts) (reused : Bool)
    (psk : List Nat) :
    ((rsh_key_schedule_phase ctx exts reused psk).consumed = true ↔
      (rsh_key_schedule_phase ctx exts reused psk).ret = HSWait.ok) := by
  unfold rsh_key_schedule_phase
  repeat' split
  all_goals simp

/-- C8: a first server message that is not a retry-request marker (wrong
message type pre-draft22; non-sentinel server random under draft22) makes
`do_read_hello_retry_request` transition directly to the ReadServerHello
state with `ok`, without invoking the message advance (the queue head is
untouched for `do_read_server_hello` to re-read); and `do_read_server_hello`
consumes its message exactly when it completes with `ok`, so the message is
consumed exactly once. -/
theorem c8_non_retry_passthrough (ctx : HRRCtx) (rctx : RSHCtx) :
    (∀ msg, ctx.msgs.head? = some msg → ctx.is_draft22 = false →
      msg.type ≠ SSL3_MT_HELLO_RETRY_REQUEST →
      do_read_hello_retry_request ctx =
        ⟨.ok, some .read_server_hello, false, none, false, none⟩) ∧
    (∀ msg sr cs exts, ctx.msgs.head? = some msg → ctx.is_draft22 = true →
      (ctx.early_data_offered = true ∨ ctx.add_ccs_ok = true) →
      msg.type = SSL3_MT_SERVER_HELLO →
      hrr_parse_body_draft22 ctx.buf msg.body = some (sr, cs, exts) →
      CBS_mem_equal ctx.buf sr ctx.kHelloRetryRequest = false →
      do_read_hello_retry_request ctx =
        ⟨.ok, some .read_server_hello, false, none, false, none⟩) ∧
    ((do_read_server_hello rctx).consumed = true ↔
      (do_read_server_hello rctx).ret = HSWait.ok) := by
  refine ⟨?_, ?_, ?_⟩
  · intro msg hhead hd22 htype
    unfold do_read_hello_retry_request
    rw [hhead]
    simp [hd22, htype]
  · intro msg sr cs exts hhead hd22 hccs htype hbody hmem
    unfold do_read_hello_retry_request
    rw [hhead]
    simp only [hd22, if_true]
    rw [if_neg (by rcases hccs with h | h <;> simp [h])]
    rw [if_neg (by simp [htype]), hbody]
    simp [hmem]
  · unfold do_read_server_hello
    cases hpre : rsh_prelude rctx with
    | error e =>
      have := rsh_prelude_error_ret rctx e hpre
      simp_all
    | ok pr =>
      obtain ⟨cipher, exts⟩ := pr
      simp only []
      cases hpsk : rsh_psk_phase rctx cipher exts with
      | error e =>
        have := rsh_psk_phase_error_ret rctx cipher exts e hpsk
        simp_all
      | ok pr2 =>
        obtain ⟨reused, psk⟩ := pr2
        simpa using rsh_ks_phase_consumed rctx exts reused psk

/-- A successful `CBS_get_u32` reads the big-endian u32 at the cursor's
current offset. -/
theorem CBS_get_u32_first (buf : Buf) (c : CBS) (v : Nat) (c' : CBS)
    (h : CBS_get_u32 buf c = (some v, c')) : v = beVal buf c.off 4 := by
  by_cases hlen : c.len < 4
  · simp [CBS_get_u32, cbs_get_u, cbs_get, hlen] at h
  · simp [CBS_get_u32, cbs_get_u, cbs_get, hlen] at h
    exact h.1.symm

/-- The first component of a successful NewSessionTicket body parse is the
u32 lifetime at the start of the message body. -/
theorem ticket_parse_body_first_u32 (buf : Buf) (d21 : Bool) (body : CBS)
    (st a : Nat) (tk : List Nat)
    (h : ticket_parse_body buf d21 body = some (st, a, tk)) :
    st = beVal buf body.off 4 := by
  unfold ticket_parse_body at h
  split at h
  · simp at h
  · rename_i st' b1 heq
    have hst' := CBS_get_u32_first buf body st' b1 heq
    repeat' split at h
    all_goals simp_all

/-- C9: whenever `tls13_process_new_session_ticket` stores a session, the
stored timeout is the minimum of the session's previous timeout and the
server-advertised u32 lifetime at the start of the ticket message. -/
theorem c9_ticket_timeout_min (ctx : TicketCtx) (sess : TicketSession)
    (h : (tls13_process_new_session_ticket ctx).2 = some sess) :
    sess.timeout = min ctx.timeout0 (beVal ctx.buf ctx.body.off 4) := by
  unfold tls13_process_new_session_ticket at h
  split at h
  · simp at h
  · split at h
    · simp at h
    · split at h
      · simp at h
      · rename_i st a tk heq
        have hst := ticket_parse_body_first_u32 ctx.buf ctx.is_draft21 ctx.body
          st a tk heq
        repeat' split at h
        all_goals try (cases h)
        all_goals simp_all [Nat.min_def]
        all_goals first
          | omega
          | (split_ifs at * <;> omega)

/-- Witness for `c9_ticket_timeout_min`: a server-advertised lifetime of
3600 with a local timeout of 7200 stores 3600, and with the values swapped
it also stores 3600. -/
theorem c9_ticket_timeout_witness :
    (∃ s, (tls13_process_new_session_ticket
        ⟨[0, 0, 14, 16, 0, 0, 0, 0, 0, 1, 171, 0, 0], ⟨0, 13⟩, false, true,
          7200, 0, false, true, some none, false⟩).2 = some s ∧
      s.timeout = min 7200 3600) ∧
    (∃ s, (tls13_process_new_session_ticket
        ⟨[0, 0, 28, 32, 0, 0, 0, 0, 0, 1, 171, 0, 0], ⟨0, 13⟩, false, true,
          3600, 0, false, true, some none, false⟩).2 = some s ∧
      s.timeout = min 3600 7200) := by
  constructor
  · exact ⟨⟨0, [171], 3600, 0⟩, by decide,
      c9_ticket_timeout_min
        ⟨[0, 0, 14, 16, 0, 0, 0, 0, 0, 1, 171, 0, 0], ⟨0, 13⟩, false, true,
          7200, 0, false, true, some none, false⟩ ⟨0, [171], 3600, 0⟩ (by decide)⟩
  · exact ⟨⟨0, [171], 3600, 0⟩, by decide,
      c9_ticket_timeout_min
        ⟨[0, 0, 28, 32, 0, 0, 0, 0, 0, 1, 171, 0, 0], ⟨0, 13⟩, false, true,
          3600, 0, false, true, some none, false⟩ ⟨0, [171], 3600, 0⟩ (by decide)⟩

/-- C10: `ssl_client_hello_init` rejects a ClientHello whose session id
exceeds 32 bytes, whose cipher-suite list is shorter than 2 bytes or of odd
length, whose compression-method list is empty, or that carries trailing
bytes after the extensions block; and it accepts a ClientHello that ends
immediately after the compression methods, exposing an empty (absent)
extensions view. -/
theorem c10_client_hello_init_checks (buf : Buf) (is_dtls : Bool) (body : CBS) :
    (∀ v rnd sid c1, ch_parse_prefix buf body = some (v, rnd, sid, c1) →
      CBS_len sid > 32 → ssl_client_hello_init buf is_dtls body = none) ∧
    (∀ v rnd sid c1 c2 cs cm c3,
      ch_parse_prefix buf body = some (v, rnd, sid, c1) →
      ch_skip_dtls_cookie buf is_dtls c1 = some c2 →
      ch_parse_suites buf c2 = some (cs, cm, c3) →
      (CBS_len cs < 2 ∨ CBS_len cs % 2 ≠ 0) →
      ssl_client_hello_init buf is_dtls body = none) ∧
    (∀ v rnd sid c1 c2 cs cm c3,
      ch_parse_prefix buf body = some (v, rnd, sid, c1) →
      ch_skip_dtls_cookie buf is_dtls c1 = some c2 →
      ch_parse_suites buf c2 = some (cs, cm, c3) →
      CBS_len cm < 1 →
      ssl_client_hello_init buf is_dtls body = none) ∧
    (∀ v rnd sid c1 c2 cs cm c3 exts c4,
      ch_parse_prefix buf body = some (v, rnd, sid, c1) →
      ch_skip_dtls_cookie buf is_dtls c1 = some c2 →
      ch_parse_suites buf c2 = some (cs, cm, c3) →
      CBS_len c3 ≠ 0 →
      CBS_get_u16_length_prefixed buf c3 = (some exts, c4) →
      CBS_len c4 ≠ 0 →
      ssl_client_hello_init buf is_dtls body = none) ∧
    (∀ v rnd sid c1 c2 cs cm c3,
      ch_parse_prefix buf body = some (v, rnd, sid, c1) →
      ch_skip_dtls_cookie buf is_dtls c1 = some c2 →
      ch_parse_suites buf c2 = some (cs, cm, c3) →
      CBS_len sid ≤ 32 → 2 ≤ CBS_len cs → CBS_len cs % 2 = 0 →
      1 ≤ CBS_len cm → CBS_len c3 = 0 →
      ssl_client_hello_init buf is_dtls body =
        some ⟨v, rnd, sid, cs, cm, none⟩) := by
  refine ⟨?_, ?_, ?_, ?_, ?_⟩
  · intro v rnd sid c1 hp hsid
    unfold ssl_client_hello_init
    rw [hp]
    dsimp only
    simp only [SSL_MAX_SSL_SESSION_ID_LENGTH]
    rw [if_pos hsid]
  · intro v rnd sid c1 c2 cs cm c3 hp hck hsu hbad
    unfold ssl_client_hello_init
    rw [hp]
    dsimp only
    by_cases h1 : CBS_len sid > SSL_MAX_SSL_SESSION_ID_LENGTH
    · rw [if_pos h1]
    · rw [if_neg h1, hck]
      dsimp only
      rw [hsu]
      dsimp only
      rw [if_pos hbad]
  · intro v rnd sid c1 c2 cs cm c3 hp hck hsu hbad
    unfold ssl_client_hello_init
    rw [hp]
    dsimp only
    by_cases h1 : CBS_len sid > SSL_MAX_SSL_SESSION_ID_LENGTH
    · rw [if_pos h1]
    · rw [if_neg h1, hck]
      dsimp only
      rw [hsu]
      dsimp only
      by_cases h2 : CBS_len cs < 2 ∨ CBS_len cs % 2 ≠ 0
      · rw [if_pos h2]
      · rw [if_neg h2, if_pos hbad]
  · intro v rnd sid c1 c2 cs cm c3 exts c4 hp hck hsu h3ne hexts h4ne
    unfold ssl_client_hello_init
    rw [hp]
    dsimp only
    by_cases h1 : CBS_len sid > SSL_MAX_SSL_SESSION_ID_LENGTH
    · rw [if_pos h1]
    · rw [if_neg h1, hck]
      dsimp only
      rw [hsu]
      dsimp only
      by_cases h2 : CBS_len cs < 2 ∨ CBS_len cs % 2 ≠ 0
      · rw [if_pos h2]
      · rw [if_neg h2]
        by_cases h3 : CBS_len cm < 1
        · rw [if_pos h3]
        · rw [if_neg h3, if_neg h3ne, hexts]
          dsimp only
          rw [if_neg (by simp [h4ne])]
  · intro v rnd sid c1 c2 cs cm c3 hp hck hsu hsid hcs1 hcs2 hcm hc3
    unfold ssl_client_hello_init
    rw [hp]
    dsimp only
    rw [if_neg (by simp only [SSL_MAX_SSL_SESSION_ID_LENGTH]; omega)]
    rw [hck]
    dsimp only
    rw [hsu]
    dsimp only
    rw [if_neg (by omega), if_neg (by omega), if_pos hc3]
